import Mathlib

/-!
Verification of the vue-tdd-test repository's tooling scripts against their
natural-language specification.  The scripts are shallowly embedded: JavaScript
strings become Lean `String`s, multi-line text bodies become `List String`
(one element per line), the file system becomes an association list from paths
to line lists, and process side effects (stdout/stderr lines, exit codes,
external subprocess calls) become explicit values and event traces.
JavaScript truthiness on optional string arguments is modelled by `falsy`.
-/

namespace VueTdd

/-- JavaScript falsiness of an optional string argument: `undefined` and the
empty string are falsy (`!componentName` in the scripts). -/
def falsy : Option String → Bool
  | none => true
  | some s => s == ""

/-- Does the character list `needle` occur at the start of `hay`? -/
def charsStart : List Char → List Char → Bool
  | [], _ => true
  | _ :: _, [] => false
  | a :: as, b :: bs => a == b && charsStart as bs

/-- Does the character list `needle` occur anywhere inside `hay`? -/
def charsAnywhere (needle : List Char) : List Char → Bool
  | [] => charsStart needle []
  | b :: bs => charsStart needle (b :: bs) || charsAnywhere needle bs

/-- JavaScript `hay.includes(needle)`: substring test on strings. -/
def strHas (hay needle : String) : Bool :=
  charsAnywhere needle.toList hay.toList

/-- JavaScript `s.toLowerCase()`, character by character. -/
def jsToLower (s : String) : String :=
  String.mk (s.toList.map Char.toLower)

/-! ## Storage mock (src/test/setup.ts, lines 76-107)

`localStorageMock` is an IIFE closing over a single `store` object; both
`window.localStorage` and `window.sessionStorage` are then defined with this
one object, so they share the backing store.  `store = {}` is a plain object:
its own string-valued properties are modelled as an association list (first
binding wins), and the `Object.prototype` chain behind them is modelled
explicitly — an indexed read of a never-set prototype member name returns the
inherited member (a truthy function or object, not a string), and assignment
to `__proto__` invokes the inherited setter, which stores nothing for a
string value. -/

/-- The own string-valued properties of the `store` object. -/
def StorageState : Type := List (String × String)

/-- The property names a plain `{}` object inherits from `Object.prototype`;
reading any of them through the prototype chain yields a truthy non-string
value (a function, or the prototype object for `__proto__`). -/
def protoKeys : List String :=
  ["constructor", "hasOwnProperty", "isPrototypeOf", "propertyIsEnumerable",
   "toLocaleString", "toString", "valueOf", "__defineGetter__",
   "__defineSetter__", "__lookupGetter__", "__lookupSetter__", "__proto__"]

/-- What `store[key] || null` can produce: `null`, an own string value, or a
member inherited from `Object.prototype` (truthy, so `|| null` passes it
through unchanged). -/
inductive StorageRead where
  | null
  | str (s : String)
  | inherited (key : String)
deriving DecidableEq

/-- `getItem: (key) => store[key] || null`: an own empty-string value is falsy
and reads back as `null`; with no own property, a key naming an
`Object.prototype` member reads the inherited member through the prototype
chain (truthy, so `|| null` returns it), and any other key gives
`undefined || null`, i.e. `null`. -/
def stGetItem (s : StorageState) (k : String) : StorageRead :=
  match List.lookup k s with
  | some v => if v = "" then .null else .str v
  | none => if k ∈ protoKeys then .inherited k else .null

/-- `setItem: (key, value) => { store[key] = value.toString() }` (on string
inputs `toString` is the identity): plain assignment creates an own property
shadowing any inherited member — except for `__proto__`, where the inherited
accessor's setter runs instead and ignores a string value, storing nothing. -/
def stSetItem (s : StorageState) (k v : String) : StorageState :=
  if k = "__proto__" then s
  else (k, v) :: s.filter (fun p => p.1 ≠ k)

/-- `removeItem: (key) => { delete store[key] }` (`delete` removes only an
own property; inherited members are unaffected). -/
def stRemoveItem (s : StorageState) (k : String) : StorageState :=
  s.filter (fun p => p.1 ≠ k)

/-- `clear: () => { store = {} }`. -/
def stClear (_ : StorageState) : StorageState := []

/-- The test window after setup: `Object.defineProperty(window, 'localStorage',
{ value: localStorageMock })` and the same `value` for `'sessionStorage'` —
one shared store backs both properties. -/
structure TestWindow where
  storage : StorageState

/-- `window.localStorage.setItem(k, v)` in the mocked environment. -/
def localStorageSetItem (w : TestWindow) (k v : String) : TestWindow :=
  ⟨stSetItem w.storage k v⟩

/-- `window.sessionStorage.setItem(k, v)` in the mocked environment. -/
def sessionStorageSetItem (w : TestWindow) (k v : String) : TestWindow :=
  ⟨stSetItem w.storage k v⟩

/-- `window.localStorage.getItem(k)` in the mocked environment. -/
def localStorageGetItem (w : TestWindow) (k : String) : StorageRead :=
  stGetItem w.storage k

/-- `window.sessionStorage.getItem(k)` in the mocked environment. -/
def sessionStorageGetItem (w : TestWindow) (k : String) : StorageRead :=
  stGetItem w.storage k

/-- `window.localStorage.clear()` in the mocked environment. -/
def localStorageClear (w : TestWindow) : TestWindow :=
  ⟨stClear w.storage⟩

/-- `window.sessionStorage.clear()` in the mocked environment. -/
def sessionStorageClear (w : TestWindow) : TestWindow :=
  ⟨stClear w.storage⟩

/-- The window as installed by the setup file, before any test runs: the
closed-over `store` starts as the empty record `{}`. -/
def freshWindow : TestWindow := ⟨[]⟩

/-! ## getEmittedEvent (src/test/helpers/vue-testing.ts, lines 72-82)

`wrapper.emitted(eventName)` returns either `undefined` (event never emitted)
or the array of emissions, each emission being the array of arguments passed
to `emit`.  The wrapper is modelled by that lookup function; payloads are a
type parameter. -/

/-- `getEmittedEvent(wrapper, eventName, index = 0)`:
`const emitted = wrapper.emitted(eventName); if (!emitted || !emitted[index])
return undefined; return emitted[index][0]`.  An in-range emission array is
always truthy (even when empty), so `!emitted[index]` only fires when `index`
is out of range; `emitted[index][0]` is `undefined` when the emission carried
no arguments. -/
def getEmittedEvent {V : Type} (wrapperEmitted : String → Option (List (List V)))
    (eventName : String) (index : Nat) : Option V :=
  match wrapperEmitted eventName with
  | none => none
  | some emitted =>
    match emitted.get? index with
    | none => none
    | some args => args.head?

/-! ## Data model of the generation pipeline (spec §3)

`FeatureRequirements`, `ValidationResult` and the content validator's summary
record, as exchanged between `validateRequirements`, `generateTestContent`
and `performFullValidation` in the batch CLI (src/unnamed/part_002). -/

/-- The `FeatureRequirements` record parsed from `requirementsJson`. -/
structure Requirements where
  userStory : Option String
  acceptanceCriteria : List String
  happyPath : List String
  edgeCases : List String
  errorCases : List String
  props : String
  events : String

/-- `{ valid: bool, errors: string[] }` returned by `validateRequirements`. -/
structure ValidationResult where
  valid : Bool
  errors : List String

/-- The `summary` record of the content validator's result. -/
structure ContentSummary where
  totalErrors : Nat
  totalWarnings : Nat
  hasAccessibilityTests : Bool
  followsTddPattern : Bool

/-- The result of `performFullValidation`: `valid`, `errors`, `warnings`
and a `summary` record. -/
structure ContentValidation where
  valid : Bool
  errors : List String
  warnings : List String
  summary : ContentSummary

/-- A thrown JavaScript `Error`: its `message` and `stack` properties. -/
structure JsError where
  message : String
  stack : String

/-! ## Test content generator (spec §4.2, example output src/unnamed/part_003)

`generateTestContent` is imported from the external package
`@carolinappowers/vue-tdd-automation/shared/test-generator`; its source is not
in this repository, so it is modelled from the spec and from the sample
generated file (the UserProfile test).  Text is a list of lines. -/

/-- The deliberately-failing placeholder assertion marker of the red phase. -/
def redPhaseMarker : String := "expect(true).toBe(false)"

/-- The full red-phase stub line emitted in every generated test body. -/
def redPhaseLine : String :=
  "      expect(true).toBe(false); // Red phase - this should fail"

/-- Modelled from the spec: the test name is "derived verbatim from the
criterion string (lower-cased, given/when/then phrasing preserved)"; in the
sample output commas, colons and periods are also dropped. -/
def sanitizeCriterion (c : String) : String :=
  String.mk ((jsToLower c).toList.filter (fun ch => ch ≠ ',' ∧ ch ≠ ':' ∧ ch ≠ '.'))

/-- Modelled from the spec: one acceptance-criterion test, an `it` block whose
name derives from the criterion and whose body is a red-phase failing stub. -/
def criterionTest (cn c : String) : List String :=
  [ "    it(\x27should " ++ sanitizeCriterion c ++ "\x27, async () => \x7b",
    "      // Acceptance Criteria: " ++ c,
    "      const \x7b user \x7d = render(" ++ cn ++ ");",
    "",
    "      // TODO: Implement test for: " ++ c,
    "",
    redPhaseLine,
    "    \x7d);",
    "" ]

/-- Modelled from the spec: the "Accessibility" group with its two fixed
stub tests (screen-reader accessibility, keyboard navigability). -/
def accessibilityBlock (cn : String) : List String :=
  [ "  describe(\x27Accessibility\x27, () => \x7b",
    "    it(\x27should be accessible to screen readers\x27, () => \x7b",
    "      render(" ++ cn ++ ");",
    "",
    redPhaseLine,
    "    \x7d);",
    "",
    "    it(\x27should be keyboard navigable\x27, async () => \x7b",
    "      const \x7b user \x7d = render(" ++ cn ++ ");",
    "",
    redPhaseLine,
    "    \x7d);",
    "  \x7d);" ]

/-- Modelled from the spec: the header comment carries the issue number and
title when both metadata fields are present, a generic placeholder otherwise. -/
def generatedHeader (cn : String) (meta : Option (String × String)) : List String :=
  [ "/**",
    " * " ++ cn ++ " Component Tests" ] ++
  (match meta with
   | some (n, t) => [" * GitHub Issue #" ++ n ++ ": " ++ t]
   | none => [" * Generated TDD test scaffold"]) ++
  [ " *",
    " * This test file follows TDD approach - all tests should fail initially (Red phase)",
    " */" ]

/-- Modelled from the spec: the fixed import block and the opening of the
per-component test suite. -/
def generatedImports (cn : String) : List String :=
  [ "",
    "import \x7b describe, it, expect, beforeEach, vi, afterEach \x7d from \x27vitest\x27",
    "import \x7b render, screen, waitFor \x7d from \x27@/test/helpers/testing-library\x27",
    "import " ++ cn ++ " from \x27./" ++ cn ++ ".vue\x27",
    "",
    "describe(\x27" ++ cn ++ " Component\x27, () => \x7b" ]

/-- Modelled from the spec: `generateTestContent(componentName, requirements,
metadata)` — one suite per component with an "Acceptance Criteria" group (one
red-phase test per criterion) and the fixed "Accessibility" group. -/
def generateTestContent (cn : String) (req : Requirements)
    (meta : Option (String × String)) : List String :=
  generatedHeader cn meta ++ generatedImports cn ++
  [ "  describe(\x27Acceptance Criteria\x27, () => \x7b" ] ++
  req.acceptanceCriteria.flatMap (criterionTest cn) ++
  [ "  \x7d);", "" ] ++
  accessibilityBlock cn ++
  [ "\x7d);" ]

/-- Modelled from the spec: the content validator's `followsTddPattern` flag
is "true iff at least one generated assertion is a deliberately-failing
placeholder" — a scan of the text for the red-phase marker. -/
def followsTddPattern (lines : List String) : Bool :=
  lines.any (fun l => strHas l redPhaseMarker)

/-! ## Batch generator CLI (src/unnamed/part_002, generate-tests-from-issue)

The script is modelled as a function from its oracles — `JSON.parse`,
`validateRequirements`, `generateTestContent`, `performFullValidation`, all
imported from the external package — and its four positional arguments to an
event trace and an exit code.  The trace records each pipeline stage as it
runs and every line written to stdout (`out`) or to the diagnostic stream
(`err`; `console.warn` also writes there). -/

/-- A pipeline stage of the batch flow. -/
inductive Phase where
  | vreq
  | pgen
  | pcval
deriving DecidableEq

/-- An observable event of a batch CLI run. -/
inductive BEvent where
  | validateReq
  | generate
  | contentValidate
  | out (line : String)
  | err (line : String)
deriving DecidableEq

/-- The pipeline stage an event marks, if any. -/
def phaseOf : BEvent → Option Phase
  | .validateReq => some .vreq
  | .generate => some .pgen
  | .contentValidate => some .pcval
  | _ => none

/-- The lines a trace writes to standard output. -/
def stdoutOf (t : List BEvent) : List String :=
  t.filterMap (fun e => match e with | .out s => some s | _ => none)

/-- The pipeline stages of a trace, in order. -/
def phasesOf (t : List BEvent) : List Phase :=
  t.filterMap phaseOf

/-- The usage line printed when a required positional argument is missing. -/
def batchUsageLine : String :=
  "Usage: node generate-tests-from-issue.js <componentName> <requirementsJson> [issueNumber] [issueTitle]"

/-- `issueNumber && issueTitle ? { issueNumber, issueTitle } : {}`: the
metadata passed to the generator, present only when both optional arguments
are truthy. -/
def batchMeta (inum ititle : Option String) : Option (String × String) :=
  if !falsy inum && !falsy ititle then some (inum.getD "", ititle.getD "")
  else none

/-- The batch CLI `generate-tests-from-issue`: argument guard, `JSON.parse`
inside `try`, `validateRequirements`, `generateTestContent` with metadata only
when both `issueNumber` and `issueTitle` are truthy, `performFullValidation`,
warnings, then the sentinel-wrapped content on stdout and `process.exit(0)`;
every failure branch calls `process.exit(1)`. -/
def runBatchIssue
    (parseJson : String → Except JsError Requirements)
    (vReq : Requirements → ValidationResult)
    (gen : String → Requirements → Option (String × String) → List String)
    (pfv : List String → String → ContentValidation)
    (cn rj inum ititle : Option String) : List BEvent × Nat :=
  if falsy cn || falsy rj then
    ([.err batchUsageLine], 1)
  else
    let cnS := cn.getD ""
    match parseJson (rj.getD "") with
    | .error e =>
        ([.err ("❌ Error generating tests: " ++ e.message), .err e.stack], 1)
    | .ok req =>
        let v := vReq req
        if !v.valid then
          ([BEvent.validateReq, .err "❌ Invalid requirements:"] ++
            v.errors.map (fun s => .err ("  - " ++ s)), 1)
        else
          let content := gen cnS req (batchMeta inum ititle)
          let cv := pfv content cnS
          if !cv.valid then
            ([BEvent.validateReq, .generate, .contentValidate,
              .err "❌ Generated test content has errors:"] ++
              cv.errors.map (fun s => .err ("  - " ++ s)), 1)
          else
            let warns : List BEvent := if cv.warnings.isEmpty then [] else
              [.err "⚠️  Generated test content has warnings:"] ++
                cv.warnings.map (fun s => .err ("  - " ++ s))
            ([BEvent.validateReq, .generate, .contentValidate] ++ warns ++
              [.out "TEST_CONTENT_START"] ++ content.map .out ++
              [.out "TEST_CONTENT_END",
               .err "\n✅ Test generation successful",
               .err ("  - Total tests: " ++
                 toString (cv.summary.totalErrors + cv.summary.totalWarnings)),
               .err ("  - Has accessibility tests: " ++
                 toString cv.summary.hasAccessibilityTests),
               .err ("  - Follows TDD pattern: " ++
                 toString cv.summary.followsTddPattern)], 0)

/-! ## Scaffold generator (src/scripts/create-tdd-component.js)

The file system is an association list from paths to file contents (lines).
Directories are not modelled (`mkdirSync` only creates directories), and the
file writes of the success branch are modelled as succeeding.  The
`__dirname`-relative components directory is abstracted to its repo-relative
path. -/

/-- A file system: paths mapped to file contents (lists of lines). -/
def FS : Type := List (String × List String)

/-- `fs.existsSync(p)`. -/
def fsExists (fs : FS) (p : String) : Bool :=
  (List.lookup p fs).isSome

/-- `fs.writeFileSync(p, content)`. -/
def fsWrite (fs : FS) (p : String) (content : List String) : FS :=
  (p, content) :: fs.filter (fun q => q.1 ≠ p)

/-- `path.join(__dirname, '..', 'src', 'components')`, relative to the repo. -/
def componentsDir : String := "src/components"

/-- The `testTemplate` string of create-tdd-component.js (lines 26-100),
interpolating `issueDescription`, `componentName` and
`componentName.toLowerCase()`. -/
def testTemplate (componentName issueDescription : String) : List String :=
  [ "/**",
    " * " ++ issueDescription,
    " *",
    " * User Story: As a [user type], I want [feature] so that [benefit]",
    " *",
    " * Acceptance Criteria:",
    " * - Given [context], when [action], then [expected outcome]",
    " * - Given [context], when [action], then [expected outcome]",
    " *",
    " * TODO: Update this with actual requirements from GitHub issue",
    " */",
    "",
    "import \x7b describe, it, expect, beforeEach \x7d from \x27vitest\x27",
    "// import \x7b vi \x7d from \x27vitest\x27 // Uncomment if you need to mock functions",
    "import \x7b mount, VueWrapper \x7d from \x27@vue/test-utils\x27",
    "import " ++ componentName ++ " from \x27./" ++ componentName ++ ".vue\x27",
    "",
    "describe(\x27" ++ componentName ++ "\x27, () => \x7b",
    "  let wrapper: VueWrapper",
    "",
    "  beforeEach(() => \x7b",
    "    wrapper = mount(" ++ componentName ++ ", \x7b",
    "      props: \x7b",
    "        // Add default props here",
    "      \x7d",
    "    \x7d)",
    "  \x7d)",
    "",
    "  describe(\x27Component Initialization\x27, () => \x7b",
    "    it(\x27should render the component\x27, () => \x7b",
    "      expect(wrapper.find(\x27[data-testid=\"" ++ jsToLower componentName ++
      "-container\"]\x27).exists()).toBe(true)",
    "    \x7d)",
    "",
    "    it(\x27should display the correct initial state\x27, () => \x7b",
    "      // TODO: Add initialization tests",
    "      expect(true).toBe(false) // This should fail initially (TDD!)",
    "    \x7d)",
    "  \x7d)",
    "",
    "  describe(\x27Props\x27, () => \x7b",
    "    it(\x27should accept and display prop values correctly\x27, async () => \x7b",
    "      // TODO: Test prop handling",
    "      expect(true).toBe(false)",
    "    \x7d)",
    "  \x7d)",
    "",
    "  describe(\x27User Interactions\x27, () => \x7b",
    "    it(\x27should handle click events\x27, async () => \x7b",
    "      // TODO: Test user interactions",
    "      expect(true).toBe(false)",
    "    \x7d)",
    "  \x7d)",
    "",
    "  describe(\x27Emitted Events\x27, () => \x7b",
    "    it(\x27should emit events with correct payload\x27, async () => \x7b",
    "      // TODO: Test event emissions",
    "      expect(true).toBe(false)",
    "    \x7d)",
    "  \x7d)",
    "",
    "  describe(\x27Accessibility\x27, () => \x7b",
    "    it(\x27should have proper ARIA labels\x27, () => \x7b",
    "      // TODO: Test accessibility",
    "      expect(true).toBe(false)",
    "    \x7d)",
    "  \x7d)",
    "",
    "  describe(\x27Edge Cases\x27, () => \x7b",
    "    it(\x27should handle edge cases gracefully\x27, () => \x7b",
    "      // TODO: Test edge cases",
    "      expect(true).toBe(false)",
    "    \x7d)",
    "  \x7d)",
    "\x7d)",
    "" ]

/-- The `componentTemplate` string of create-tdd-component.js (lines 102-138),
interpolating `componentName` and `componentName.toLowerCase()`. -/
def componentTemplate (componentName : String) : List String :=
  [ "<template>",
    "  <div data-testid=\"" ++ jsToLower componentName ++ "-container\">",
    "    <!-- TODO: Implement component to pass tests -->",
    "    <h2>" ++ componentName ++ " Component</h2>",
    "    <p>Implementation pending - write tests first!</p>",
    "  </div>",
    "</template>",
    "",
    "<script setup lang=\"ts\">",
    "// Uncomment imports as needed",
    "// import \x7b ref, computed, watch \x7d from \x27vue\x27",
    "",
    "// Props - uncomment and define when needed",
    "// interface Props \x7b",
    "//   // TODO: Define props based on test requirements",
    "// \x7d",
    "// const props = defineProps<Props>()",
    "",
    "// Emits - uncomment and define when needed",
    "// const emit = defineEmits<\x7b",
    "//   // TODO: Define events based on test requirements",
    "// \x7d>()",
    "",
    "// State",
    "// TODO: Add reactive state as needed",
    "",
    "// Methods",
    "// TODO: Implement methods to satisfy tests",
    "",
    "// Computed",
    "// TODO: Add computed properties as needed",
    "</script>",
    "",
    "<style scoped>",
    "/* TODO: Add styles */",
    "</style>",
    "" ]

/-- `process.argv[3] || `` `Issue: ${componentName} Component` ``: the issue
description defaults when the third argument is absent or empty. -/
def descOf (componentName : String) (argv3 : Option String) : String :=
  match argv3 with
  | some d => if d = "" then "Issue: " ++ componentName ++ " Component" else d
  | none => "Issue: " ++ componentName ++ " Component"

/-- The create-tdd-component script: guard on a missing/empty component name,
the `|| `-defaulted issue description, both existence checks before any write,
then the two writes (test file first).  Returns the exit code, the resulting
file system and the console lines. -/
def createTddComponent (fs : FS) (argv2 argv3 : Option String) :
    Nat × FS × List String :=
  if falsy argv2 then
    (1, fs,
     ["❌ Please provide a component name",
      "Usage: node scripts/create-tdd-component.js ComponentName \"Issue #1: Description\""])
  else
    let componentName := argv2.getD ""
    let issueDescription := descOf componentName argv3
    let testFile := componentsDir ++ "/" ++ componentName ++ ".test.ts"
    let componentFile := componentsDir ++ "/" ++ componentName ++ ".vue"
    if fsExists fs testFile then
      (1, fs, ["❌ Test file already exists: " ++ testFile])
    else if fsExists fs componentFile then
      (1, fs, ["❌ Component file already exists: " ++ componentFile])
    else
      (0,
       fsWrite (fsWrite fs testFile (testTemplate componentName issueDescription))
         componentFile (componentTemplate componentName),
       ["✅ Created test file: " ++ testFile,
        "✅ Created component file: " ++ componentFile,
        "\n📋 Next steps:",
        "1. Update the test file with actual requirements from your GitHub issue",
        "2. Run tests in watch mode: npm run tdd",
        "3. Verify all tests fail (RED phase)",
        "4. Implement the component to make tests pass (GREEN phase)",
        "5. Refactor while keeping tests green (REFACTOR phase)",
        "\n🚀 Happy TDD coding!"])

/-! ## Interactive CLI (src/unnamed/part_001, TDD Feature CLI)

The prompt answers and the outcomes of the external tools (`gh`, `git`) are
inputs; the flow is a function from them to an event trace and `main`'s
promise result.  File writes and the scaffold subprocess are modelled as
succeeding — the claims under test are about external-tool (issue-tracker /
version-control) failures. -/

/-- The answers collected by the sequential prompts, plus the final
"Generate local TDD setup now? (y/n)" answer. -/
structure Answers where
  componentName : String
  description : String
  userType : String
  feature : String
  benefit : String
  acceptanceCriteria : List String
  props : String
  events : String
  stateManagement : String
  happyPath : List String
  edgeCases : List String
  errorCases : List String
  desktopView : String
  mobileView : String
  accessibility : String
  generateLocal : String

/-- The external world: whether `gh --version` succeeds, the outcome of
`gh issue create`, the outcome of `git checkout -b`, and the timestamp used
in the fallback filename. -/
structure ExtWorld where
  hasGitHubCLI : Bool
  ghCreateResult : Except JsError String
  gitCheckoutResult : Except JsError Unit
  timestamp : String

/-- An observable step of the interactive flow. -/
inductive IEvent where
  | ghIssueCreated (output : String)
  | ghCreateErrorLogged (message : String)
  | fallbackFileWritten (filename : String)
  | branchCreated (name : String)
  | branchFallbackLogged (name : String)
  | scaffoldInvoked (componentName issueTitle : String)
  | testFileWritten (path : String) (content : List String)
  | closed
deriving DecidableEq

/-- `` `[FEATURE] ${componentName} - ${description}` ``. -/
def issueTitleOf (a : Answers) : String :=
  "[FEATURE] " ++ a.componentName ++ " - " ++ a.description

/-- The `FeatureRequirements` record the interactive flow assembles before
calling `generateTestContent`. -/
def requirementsOf (a : Answers) : Requirements :=
  ⟨some ("As a " ++ a.userType ++ ", I want " ++ a.feature ++ " so that " ++ a.benefit),
   a.acceptanceCriteria, a.happyPath, a.edgeCases, a.errorCases, a.props, a.events⟩

/-- The issue-creation half of `main`: `gh issue create` inside `try`/`catch`
when the GitHub CLI is present (a failure is logged and swallowed), the
write-to-file fallback otherwise. -/
def ghSteps (w : ExtWorld) (a : Answers) : List IEvent :=
  if w.hasGitHubCLI then
    match w.ghCreateResult with
    | .ok result => [IEvent.ghIssueCreated result]
    | .error e => [IEvent.ghCreateErrorLogged e.message]
  else
    [IEvent.fallbackFileWritten
      ("issue-" ++ a.componentName ++ "-" ++ w.timestamp ++ ".md")]

/-- The local-setup half of `main`, run when the user answered `y`:
`git checkout -b` inside `try`/`catch` (a failure is logged as "may already
exist" and swallowed), then the scaffold subprocess and the detailed test
file write. -/
def localSteps (w : ExtWorld) (a : Answers) : List IEvent :=
  if jsToLower a.generateLocal = "y" then
    (match w.gitCheckoutResult with
     | .ok _ => [IEvent.branchCreated ("feature/" ++ jsToLower a.componentName)]
     | .error _ =>
        [IEvent.branchFallbackLogged ("feature/" ++ jsToLower a.componentName)]) ++
    [IEvent.scaffoldInvoked a.componentName (issueTitleOf a),
     IEvent.testFileWritten ("src/components/" ++ a.componentName ++ ".test.ts")
       (generateTestContent a.componentName (requirementsOf a) none)]
  else []

/-- The `main` function of the TDD Feature CLI after the prompts: issue
creation, optional local setup, finally `rl.close()`.  Every `try`/`catch`
swallows its error, so `main` resolves. -/
def interactiveMain (w : ExtWorld) (a : Answers) :
    List IEvent × Except JsError Unit :=
  (ghSteps w a ++ localSteps w a ++ [IEvent.closed], Except.ok ())

/-- Line 264, `main().catch(console.error)`: a rejection of `main` is handled
by logging the error (its stack) to the diagnostic stream; no exit code is
ever set, so the process exit status is 0 whether `main` resolved or
rejected.  Returns the exit status and the diagnostic lines of the handler. -/
def interactiveTop (r : Except JsError Unit) : Nat × List String :=
  match r with
  | .ok _ => (0, [])
  | .error e => (0, [e.stack])

/-- The success condition of a batch invocation: both required arguments are
truthy, the JSON parses, and both the requirements validation and the content
validation of the generated text pass. -/
def batchSucceeds (pj : String → Except JsError Requirements)
    (vR : Requirements → ValidationResult)
    (g : String → Requirements → Option (String × String) → List String)
    (f : List String → String → ContentValidation)
    (cn rj inum ititle : Option String) : Prop :=
  falsy cn = false ∧ falsy rj = false ∧
  (match pj (rj.getD "") with
   | .error _ => False
   | .ok req =>
     (vR req).valid = true ∧
     (f (g (cn.getD "") req (batchMeta inum ititle)) (cn.getD "")).valid = true)

theorem stdoutOf_append (a b : List BEvent) :
    stdoutOf (a ++ b) = stdoutOf a ++ stdoutOf b :=
  List.filterMap_append ..

theorem stdoutOf_err_map (l : List String) : stdoutOf (l.map BEvent.err) = [] := by
  simp [stdoutOf]

theorem stdoutOf_out_map (l : List String) : stdoutOf (l.map BEvent.out) = l := by
  induction l with
  | nil => rfl
  | cons x xs ih => simpa [stdoutOf] using ih

theorem phasesOf_append (a b : List BEvent) :
    phasesOf (a ++ b) = phasesOf a ++ phasesOf b :=
  List.filterMap_append ..

theorem phasesOf_err_map (l : List String) : phasesOf (l.map BEvent.err) = [] := by
  simp [phasesOf, phaseOf]

theorem phasesOf_out_map (l : List String) : phasesOf (l.map BEvent.out) = [] := by
  simp [phasesOf, phaseOf]

theorem phasesOf_warns (cv : ContentValidation) :
    phasesOf (if cv.warnings.isEmpty then ([] : List BEvent)
      else [.err "⚠️  Generated test content has warnings:"] ++
        cv.warnings.map (fun s => .err ("  - " ++ s))) = [] := by
  split
  · rfl
  · simp [phasesOf, phaseOf]

theorem stdoutOf_warns (cv : ContentValidation) :
    stdoutOf (if cv.warnings.isEmpty then ([] : List BEvent)
      else [.err "⚠️  Generated test content has warnings:"] ++
        cv.warnings.map (fun s => .err ("  - " ++ s))) = [] := by
  split
  · rfl
  · simp [stdoutOf]

section BatchLemmas

variable (pj : String → Except JsError Requirements)
variable (vR : Requirements → ValidationResult)
variable (g : String → Requirements → Option (String × String) → List String)
variable (f : List String → String → ContentValidation)
variable (cn rj inum ititle : Option String)

theorem runBatch_missing_args (h : (falsy cn || falsy rj) = true) :
    runBatchIssue pj vR g f cn rj inum ititle = ([.err batchUsageLine], 1) := by
  simp [runBatchIssue, h]

theorem runBatch_parse_error (e : JsError)
    (h : (falsy cn || falsy rj) = false) (he : pj (rj.getD "") = .error e) :
    runBatchIssue pj vR g f cn rj inum ititle =
      ([.err ("❌ Error generating tests: " ++ e.message), .err e.stack], 1) := by
  simp [runBatchIssue, h, he]

theorem runBatch_invalid_req (req : Requirements)
    (h : (falsy cn || falsy rj) = false) (he : pj (rj.getD "") = .ok req)
    (hv : (vR req).valid = false) :
    runBatchIssue pj vR g f cn rj inum ititle =
      ([BEvent.validateReq, .err "❌ Invalid requirements:"] ++
        (vR req).errors.map (fun s => .err ("  - " ++ s)), 1) := by
  simp [runBatchIssue, h, he, hv]

theorem runBatch_invalid_content (req : Requirements)
    (h : (falsy cn || falsy rj) = false) (he : pj (rj.getD "") = .ok req)
    (hv : (vR req).valid = true)
    (hc : (f (g (cn.getD "") req (batchMeta inum ititle)) (cn.getD "")).valid = false) :
    runBatchIssue pj vR g f cn rj inum ititle =
      ([BEvent.validateReq, .generate, .contentValidate,
        .err "❌ Generated test content has errors:"] ++
        (f (g (cn.getD "") req (batchMeta inum ititle)) (cn.getD "")).errors.map
          (fun s => .err ("  - " ++ s)), 1) := by
  simp [runBatchIssue, h, he, hv, hc]

theorem runBatch_success (req : Requirements)
    (h : (falsy cn || falsy rj) = false) (he : pj (rj.getD "") = .ok req)
    (hv : (vR req).valid = true)
    (hc : (f (g (cn.getD "") req (batchMeta inum ititle)) (cn.getD "")).valid = true) :
    runBatchIssue pj vR g f cn rj inum ititle =
      ([BEvent.validateReq, .generate, .contentValidate] ++
        (if (f (g (cn.getD "") req (batchMeta inum ititle)) (cn.getD "")).warnings.isEmpty
         then ([] : List BEvent)
         else [.err "⚠️  Generated test content has warnings:"] ++
           (f (g (cn.getD "") req (batchMeta inum ititle)) (cn.getD "")).warnings.map
             (fun s => .err ("  - " ++ s))) ++
        [.out "TEST_CONTENT_START"] ++
        (g (cn.getD "") req (batchMeta inum ititle)).map .out ++
        [.out "TEST_CONTENT_END",
         .err "\n✅ Test generation successful",
         .err ("  - Total tests: " ++
           toString ((f (g (cn.getD "") req (batchMeta inum ititle)) (cn.getD "")).summary.totalErrors +
             (f (g (cn.getD "") req (batchMeta inum ititle)) (cn.getD "")).summary.totalWarnings)),
         .err ("  - Has accessibility tests: " ++
           toString (f (g (cn.getD "") req (batchMeta inum ititle)) (cn.getD "")).summary.hasAccessibilityTests),
         .err ("  - Follows TDD pattern: " ++
           toString (f (g (cn.getD "") req (batchMeta inum ititle)) (cn.getD "")).summary.followsTddPattern)], 0) := by
  simp [runBatchIssue, h, he, hv, hc]

end BatchLemmas

/-- C1: for every invocation of the batch generator CLI, the process exits
with status 1 exactly when a required positional argument is missing (falsy),
the requirements JSON does not parse, `validateRequirements` returns
`valid: false`, or `performFullValidation` returns `valid: false`; on every
other invocation it exits with status 0. -/
theorem batch_cli_exit_code
    (pj : String → Except JsError Requirements)
    (vR : Requirements → ValidationResult)
    (g : String → Requirements → Option (String × String) → List String)
    (f : List String → String → ContentValidation)
    (cn rj inum ititle : Option String) :
    ((runBatchIssue pj vR g f cn rj inum ititle).2 = 0 ↔
      batchSucceeds pj vR g f cn rj inum ititle) ∧
    ((runBatchIssue pj vR g f cn rj inum ititle).2 = 1 ↔
      ¬ batchSucceeds pj vR g f cn rj inum ititle) := by
  by_cases hb : (falsy cn || falsy rj) = true
  · rw [runBatch_missing_args pj vR g f cn rj inum ititle hb]
    unfold batchSucceeds
    rcases Bool.or_eq_true_iff.1 hb with h | h <;> simp [h]
  · have hb' : (falsy cn || falsy rj) = false := by
      cases hx : (falsy cn || falsy rj) <;> simp_all
    have hcn : falsy cn = false := by
      cases hx : falsy cn <;> simp_all
    have hrj : falsy rj = false := by
      cases hx : falsy rj <;> simp_all
    cases he : pj (rj.getD "") with
    | error e =>
        rw [runBatch_parse_error pj vR g f cn rj inum ititle e hb' he]
        unfold batchSucceeds
        simp [he, hcn, hrj]
    | ok req =>
        by_cases hv : (vR req).valid = true
        · by_cases hc :
            (f (g (cn.getD "") req (batchMeta inum ititle)) (cn.getD "")).valid = true
          · rw [runBatch_success pj vR g f cn rj inum ititle req hb' he hv hc]
            unfold batchSucceeds
            simp [he, hcn, hrj, hv, hc]
          · have hc' :
                (f (g (cn.getD "") req (batchMeta inum ititle)) (cn.getD "")).valid = false := by
              cases hx :
                (f (g (cn.getD "") req (batchMeta inum ititle)) (cn.getD "")).valid <;> simp_all
            rw [runBatch_invalid_content pj vR g f cn rj inum ititle req hb' he hv hc']
            unfold batchSucceeds
            simp [he, hcn, hrj, hv, hc']
        · have hv' : (vR req).valid = false := by
            cases hx : (vR req).valid <;> simp_all
          rw [runBatch_invalid_req pj vR g f cn rj inum ititle req hb' he hv']
          unfold batchSucceeds
          simp [he, hcn, hrj, hv']

/-- C2: in the batch flow, the pipeline stages always occur in the order
requirements-validation, generation, content-validation (the recorded stages
form a prefix of that sequence); whenever the invocation fails, nothing at all
is written to standard output (in particular nothing between the sentinels);
and when both validations pass, standard output is exactly the generated text
wrapped in the `TEST_CONTENT_START` / `TEST_CONTENT_END` sentinel lines. -/
theorem batch_sentinel_channel
    (pj : String → Except JsError Requirements)
    (vR : Requirements → ValidationResult)
    (g : String → Requirements → Option (String × String) → List String)
    (f : List String → String → ContentValidation)
    (cn rj inum ititle : Option String) :
    List.IsPrefix (phasesOf (runBatchIssue pj vR g f cn rj inum ititle).1)
      [Phase.vreq, Phase.pgen, Phase.pcval] ∧
    (¬ batchSucceeds pj vR g f cn rj inum ititle →
      stdoutOf (runBatchIssue pj vR g f cn rj inum ititle).1 = []) ∧
    (∀ req, falsy cn = false → falsy rj = false →
      pj (rj.getD "") = Except.ok req →
      (vR req).valid = true →
      (f (g (cn.getD "") req (batchMeta inum ititle)) (cn.getD "")).valid = true →
      stdoutOf (runBatchIssue pj vR g f cn rj inum ititle).1 =
        "TEST_CONTENT_START" :: g (cn.getD "") req (batchMeta inum ititle) ++
          ["TEST_CONTENT_END"]) := by
  by_cases hb : (falsy cn || falsy rj) = true
  · rw [runBatch_missing_args pj vR g f cn rj inum ititle hb]
    refine ⟨⟨[Phase.vreq, Phase.pgen, Phase.pcval], by simp [phasesOf, phaseOf]⟩,
      fun _ => by simp [stdoutOf], ?_⟩
    intro req h1 h2
    rcases Bool.or_eq_true_iff.1 hb with h | h <;> simp_all
  · have hb' : (falsy cn || falsy rj) = false := by
      cases hx : (falsy cn || falsy rj) <;> simp_all
    have hcn : falsy cn = false := by
      cases hx : falsy cn <;> simp_all
    have hrj : falsy rj = false := by
      cases hx : falsy rj <;> simp_all
    cases he : pj (rj.getD "") with
    | error e =>
        rw [runBatch_parse_error pj vR g f cn rj inum ititle e hb' he]
        refine ⟨⟨[Phase.vreq, Phase.pgen, Phase.pcval], by simp [phasesOf, phaseOf]⟩,
          fun _ => by simp [stdoutOf], ?_⟩
        intro req h1 h2 hok
        exact absurd hok (by simp)
    | ok req =>
        by_cases hv : (vR req).valid = true
        · by_cases hc :
            (f (g (cn.getD "") req (batchMeta inum ititle)) (cn.getD "")).valid = true
          · rw [runBatch_success pj vR g f cn rj inum ititle req hb' he hv hc]
            refine ⟨⟨[], ?_⟩, ?_, ?_⟩
            · simp only [phasesOf_append, phasesOf_warns, phasesOf_out_map]
              simp [phasesOf, phaseOf]
            · intro hns
              refine absurd ?_ hns
              unfold batchSucceeds
              rw [he]
              exact ⟨hcn, hrj, hv, hc⟩
            · intro req' h1 h2 hok hv' hc'
              have hreq : req' = req := (Except.ok.inj hok).symm
              subst hreq
              simp only [stdoutOf_append, stdoutOf_warns, stdoutOf_out_map]
              simp [stdoutOf]
          · have hc' :
                (f (g (cn.getD "") req (batchMeta inum ititle)) (cn.getD "")).valid = false := by
              cases hx :
                (f (g (cn.getD "") req (batchMeta inum ititle)) (cn.getD "")).valid <;> simp_all
            rw [runBatch_invalid_content pj vR g f cn rj inum ititle req hb' he hv hc']
            refine ⟨⟨[], by simp [phasesOf_append, phasesOf, phaseOf]⟩,
              fun _ => by simp [stdoutOf_append, stdoutOf], ?_⟩
            intro req' h1 h2 hok hvx hcx
            have hreq : req' = req := (Except.ok.inj hok).symm
            subst hreq
            rw [hcx] at hc'
            exact Bool.noConfusion hc'
        · have hv' : (vR req).valid = false := by
            cases hx : (vR req).valid <;> simp_all
          rw [runBatch_invalid_req pj vR g f cn rj inum ititle req hb' he hv']
          refine ⟨⟨[Phase.pgen, Phase.pcval],
              by simp [phasesOf_append, phasesOf, phaseOf]⟩,
            fun _ => by simp [stdoutOf_append, stdoutOf], ?_⟩
          intro req' h1 h2 hok hvx hcx
          have hreq : req' = req := (Except.ok.inj hok).symm
          subst hreq
          rw [hvx] at hv'
          exact Bool.noConfusion hv'

theorem batch_sentinel_channel_witness :
    stdoutOf (runBatchIssue
      (fun _ => Except.ok (⟨none, [], [], [], [], "", ""⟩ : Requirements))
      (fun _ => ⟨true, []⟩)
      (fun _ _ _ => ["line1"])
      (fun _ _ => ⟨true, [], [], ⟨0, 0, true, true⟩⟩)
      (some "A") (some "x") none none).1 =
      ["TEST_CONTENT_START", "line1", "TEST_CONTENT_END"] ∧
    stdoutOf (runBatchIssue
      (fun _ => Except.ok (⟨none, [], [], [], [], "", ""⟩ : Requirements))
      (fun _ => ⟨false, ["missing"]⟩)
      (fun _ _ _ => ["line1"])
      (fun _ _ => ⟨true, [], [], ⟨0, 0, true, true⟩⟩)
      (some "A") (some "x") none none).1 = [] := by
  constructor
  · have h := (batch_sentinel_channel
      (fun _ => Except.ok (⟨none, [], [], [], [], "", ""⟩ : Requirements))
      (fun _ => ⟨true, []⟩)
      (fun _ _ _ => ["line1"])
      (fun _ _ => ⟨true, [], [], ⟨0, 0, true, true⟩⟩)
      (some "A") (some "x") none none).2.2
        ⟨none, [], [], [], [], "", ""⟩ (by decide) (by decide) rfl rfl rfl
    simpa using h
  · have hns : ¬ batchSucceeds
        (fun _ => Except.ok (⟨none, [], [], [], [], "", ""⟩ : Requirements))
        (fun _ => ⟨false, ["missing"]⟩)
        (fun _ _ _ => ["line1"])
        (fun _ _ => ⟨true, [], [], ⟨0, 0, true, true⟩⟩)
        (some "A") (some "x") none none := by
      intro hcontra
      have := hcontra.2.2
      simp [batchSucceeds] at this
    exact (batch_sentinel_channel
      (fun _ => Except.ok (⟨none, [], [], [], [], "", ""⟩ : Requirements))
      (fun _ => ⟨false, ["missing"]⟩)
      (fun _ _ _ => ["line1"])
      (fun _ _ => ⟨true, [], [], ⟨0, 0, true, true⟩⟩)
      (some "A") (some "x") none none).2.1 hns

/-- C3: when the derived test-file path or component-file path already exists,
the scaffold generator exits with status 1, its console output is exactly the
message naming the conflicting path, and the file system is unchanged — both
existence checks run before any write, so no existing file is overwritten. -/
theorem scaffold_no_overwrite (fs : FS) (cn : String) (argv3 : Option String)
    (hcn : cn ≠ "")
    (h : (fsExists fs (componentsDir ++ "/" ++ cn ++ ".test.ts") ||
          fsExists fs (componentsDir ++ "/" ++ cn ++ ".vue")) = true) :
    (createTddComponent fs (some cn) argv3).1 = 1 ∧
    (createTddComponent fs (some cn) argv3).2.1 = fs ∧
    (createTddComponent fs (some cn) argv3).2.2 =
      (if fsExists fs (componentsDir ++ "/" ++ cn ++ ".test.ts")
       then ["❌ Test file already exists: " ++
         (componentsDir ++ "/" ++ cn ++ ".test.ts")]
       else ["❌ Component file already exists: " ++
         (componentsDir ++ "/" ++ cn ++ ".vue")]) := by
  have hf : falsy (some cn) = false := by
    simp [falsy]
    exact hcn
  by_cases ht : fsExists fs (componentsDir ++ "/" ++ cn ++ ".test.ts") = true
  · simp [createTddComponent, hf, ht]
  · have ht' : fsExists fs (componentsDir ++ "/" ++ cn ++ ".test.ts") = false := by
      cases hx : fsExists fs (componentsDir ++ "/" ++ cn ++ ".test.ts") <;> simp_all
    have hv : fsExists fs (componentsDir ++ "/" ++ cn ++ ".vue") = true := by
      rcases Bool.or_eq_true_iff.1 h with hx | hx
      · exact absurd hx ht
      · exact hx
    simp [createTddComponent, hf, ht', hv]

theorem scaffold_no_overwrite_witness :
    (createTddComponent [("src/components/Foo.test.ts", [])] (some "Foo") none).1 = 1 ∧
    (createTddComponent [("src/components/Foo.test.ts", [])] (some "Foo") none).2.1 =
      [("src/components/Foo.test.ts", [])] ∧
    (createTddComponent [("src/components/Foo.test.ts", [])] (some "Foo") none).2.2 =
      ["❌ Test file already exists: src/components/Foo.test.ts"] := by
  have h := scaffold_no_overwrite [("src/components/Foo.test.ts", [])] "Foo" none
    (by decide) (by decide)
  refine ⟨h.1, h.2.1, ?_⟩
  rw [h.2.2]
  decide

/-- C8: when the component name argument is absent or the empty string, the
scaffold generator reports the fatal error, exits with status 1, and writes
no file (the file system is unchanged). -/
theorem scaffold_missing_name (fs : FS) (argv2 argv3 : Option String)
    (h : argv2 = none ∨ argv2 = some "") :
    (createTddComponent fs argv2 argv3).1 = 1 ∧
    (createTddComponent fs argv2 argv3).2.1 = fs ∧
    (createTddComponent fs argv2 argv3).2.2 =
      ["❌ Please provide a component name",
       "Usage: node scripts/create-tdd-component.js ComponentName \"Issue #1: Description\""] := by
  rcases h with h | h <;> subst h <;> simp [createTddComponent, falsy]

theorem scaffold_missing_name_witness :
    (createTddComponent [] (some "") none).1 = 1 ∧
    (createTddComponent [] (some "") none).2.1 = [] ∧
    (createTddComponent [] (some "") none).2.2 =
      ["❌ Please provide a component name",
       "Usage: node scripts/create-tdd-component.js ComponentName \"Issue #1: Description\""] :=
  scaffold_missing_name [] (some "") none (Or.inr rfl)

/-- C4: test generation is deterministic.  `generateTestContent` is a pure
function, so two calls on identical `(componentName, requirements, metadata)`
give identical output; and on any successful scaffold run the written test
and component files are exactly `testTemplate`/`componentTemplate` applied to
`(componentName, issueDescription)` — independent of the initial file system
or any other state (no timestamps, no random identifiers). -/
theorem generation_deterministic :
    (∀ (cnS : String) (req : Requirements) (meta : Option (String × String)),
      generateTestContent cnS req meta = generateTestContent cnS req meta) ∧
    (∀ (cn : String) (argv3 : Option String) (fs : FS),
      (createTddComponent fs (some cn) argv3).1 = 0 →
      List.lookup (componentsDir ++ "/" ++ cn ++ ".test.ts")
          (createTddComponent fs (some cn) argv3).2.1 =
        some (testTemplate cn (descOf cn argv3)) ∧
      List.lookup (componentsDir ++ "/" ++ cn ++ ".vue")
          (createTddComponent fs (some cn) argv3).2.1 =
        some (componentTemplate cn)) := by
  refine ⟨fun _ _ _ => rfl, ?_⟩
  intro cn argv3 fs h0
  have hne : componentsDir ++ "/" ++ cn ++ ".test.ts" ≠
      componentsDir ++ "/" ++ cn ++ ".vue" := by
    intro hEq
    have hlen := congrArg String.length hEq
    simp only [String.length_append] at hlen
    have h1 : ".test.ts".length = 8 := by decide
    have h2 : ".vue".length = 4 := by decide
    rw [h1, h2] at hlen
    omega
  by_cases hf : falsy (some cn) = true
  · rw [createTddComponent] at h0
    rw [if_pos hf] at h0
    simp at h0
  · have hf' : falsy (some cn) = false := by
      cases hx : falsy (some cn) <;> simp_all
    by_cases ht : fsExists fs (componentsDir ++ "/" ++ cn ++ ".test.ts") = true
    · have := (scaffold_no_overwrite fs cn argv3
        (by simpa [falsy] using hf') (by rw [ht]; rfl)).1
      rw [this] at h0
      exact absurd h0 (by decide)
    · have ht' : fsExists fs (componentsDir ++ "/" ++ cn ++ ".test.ts") = false := by
        cases hx : fsExists fs (componentsDir ++ "/" ++ cn ++ ".test.ts") <;> simp_all
      by_cases hv : fsExists fs (componentsDir ++ "/" ++ cn ++ ".vue") = true
      · have := (scaffold_no_overwrite fs cn argv3
          (by simpa [falsy] using hf') (by rw [hv]; simp)).1
        rw [this] at h0
        exact absurd h0 (by decide)
      · have hv' : fsExists fs (componentsDir ++ "/" ++ cn ++ ".vue") = false := by
          cases hx : fsExists fs (componentsDir ++ "/" ++ cn ++ ".vue") <;> simp_all
        have hres : (createTddComponent fs (some cn) argv3).2.1 =
            fsWrite (fsWrite fs (componentsDir ++ "/" ++ cn ++ ".test.ts")
                (testTemplate cn (descOf cn argv3)))
              (componentsDir ++ "/" ++ cn ++ ".vue") (componentTemplate cn) := by
          simp [createTddComponent, hf', ht', hv']
        rw [hres]
        have hbeq : (componentsDir ++ "/" ++ cn ++ ".test.ts" ==
            componentsDir ++ "/" ++ cn ++ ".vue") = false :=
          beq_eq_false_iff_ne.2 hne
        constructor
        · simp [fsWrite, List.lookup, List.filter_cons, hne, hbeq]
        · simp [fsWrite, List.lookup]

theorem generation_deterministic_witness :
    List.lookup "src/components/Login.test.ts"
        (createTddComponent [] (some "Login") none).2.1 =
      some (testTemplate "Login" "Issue: Login Component") ∧
    List.lookup "src/components/Login.vue"
        (createTddComponent [] (some "Login") none).2.1 =
      some (componentTemplate "Login") := by
  have h := generation_deterministic.2 "Login" none [] (by decide)
  simpa [componentsDir, descOf] using h

/-- C9 (corrected): `window.localStorage` and `window.sessionStorage` share
the same backing mock store, a plain `{}` object inheriting from
`Object.prototype` — a value set through one is read through the other and
clearing one clears both — but the claim's universally quantified parts hold
only away from the JavaScript quirks of that object: a stored empty-string
value reads back as `null` (the mock's `getItem` is `store[key] || null`),
`setItem("__proto__", v)` stores nothing (the inherited `__proto__` setter
ignores a string value), and `getItem` of a never-set key returns `null`
unless the key names an `Object.prototype` member, in which case the
inherited member — truthy, hence not replaced by `null` — is returned. -/
theorem storage_mock_shared_backing :
    (∀ (w : TestWindow) (k v : String), v ≠ "" → k ≠ "__proto__" →
      sessionStorageGetItem (localStorageSetItem w k v) k = .str v ∧
      localStorageGetItem (sessionStorageSetItem w k v) k = .str v) ∧
    (∀ (w : TestWindow) (k : String), k ≠ "__proto__" →
      sessionStorageGetItem (localStorageSetItem w k "") k = .null ∧
      localStorageGetItem (sessionStorageSetItem w k "") k = .null) ∧
    (∀ (w : TestWindow) (k : String), k ∉ protoKeys →
      sessionStorageGetItem (localStorageClear w) k = .null ∧
      localStorageGetItem (sessionStorageClear w) k = .null) ∧
    (∀ k : String, k ∉ protoKeys →
      localStorageGetItem freshWindow k = .null ∧
      sessionStorageGetItem freshWindow k = .null) ∧
    (∀ k ∈ protoKeys, localStorageGetItem freshWindow k = .inherited k ∧
      sessionStorageGetItem freshWindow k = .inherited k) ∧
    (∀ (w : TestWindow) (v : String),
      localStorageSetItem w "__proto__" v = w ∧
      sessionStorageSetItem w "__proto__" v = w) := by
  refine ⟨?_, ?_, ?_, ?_, ?_, ?_⟩
  · intro w k v hv hk
    constructor <;>
      simp [sessionStorageGetItem, localStorageGetItem, localStorageSetItem,
        sessionStorageSetItem, stGetItem, stSetItem, List.lookup, hv, hk]
  · intro w k hk
    constructor <;>
      simp [sessionStorageGetItem, localStorageGetItem, localStorageSetItem,
        sessionStorageSetItem, stGetItem, stSetItem, List.lookup, hk]
  · intro w k hk
    constructor <;>
      simp [sessionStorageGetItem, localStorageGetItem, localStorageClear,
        sessionStorageClear, stGetItem, stClear, List.lookup, hk]
  · intro k hk
    constructor <;>
      simp [sessionStorageGetItem, localStorageGetItem, freshWindow,
        stGetItem, List.lookup, hk]
  · intro k hk
    constructor <;>
      simp [sessionStorageGetItem, localStorageGetItem, freshWindow,
        stGetItem, List.lookup, hk]
  · intro w v
    constructor <;>
      · cases w
        simp [localStorageSetItem, sessionStorageSetItem, stSetItem]

theorem storage_mock_shared_backing_witness :
    sessionStorageGetItem (localStorageSetItem freshWindow "user" "alice") "user" =
      StorageRead.str "alice" ∧
    localStorageGetItem freshWindow "toString" =
      StorageRead.inherited "toString" ∧
    localStorageGetItem freshWindow "missing" = StorageRead.null :=
  ⟨(storage_mock_shared_backing.1 freshWindow "user" "alice"
      (by decide) (by decide)).1,
   (storage_mock_shared_backing.2.2.2.2.1 "toString" (by decide)).1,
   (storage_mock_shared_backing.2.2.2.1 "missing" (by decide)).1⟩

/-- C9, counterexample to the claim as stated: after
`localStorage.setItem("token", "")`, `sessionStorage.getItem("token")` is
`null` rather than the stored empty string, because the mock's `getItem`
returns `store[key] || null` and the empty string is falsy; moreover
`getItem("toString")`, a key never set, returns the inherited
`Object.prototype.toString` member rather than `null`. -/
theorem storage_empty_value_counterexample :
    sessionStorageGetItem (localStorageSetItem freshWindow "token" "") "token" ≠
      StorageRead.str "" ∧
    sessionStorageGetItem freshWindow "toString" ≠ StorageRead.null := by
  constructor <;> decide

/-- C10: `getEmittedEvent` is total — it returns `undefined` (here `none`)
when the event was never emitted or the index is out of range, and otherwise
returns the first element of the indexed emission's argument array. -/
theorem getEmittedEvent_total {V : Type}
    (wrapperEmitted : String → Option (List (List V)))
    (eventName : String) (index : Nat) :
    (wrapperEmitted eventName = none →
      getEmittedEvent wrapperEmitted eventName index = none) ∧
    (∀ es, wrapperEmitted eventName = some es → es.length ≤ index →
      getEmittedEvent wrapperEmitted eventName index = none) ∧
    (∀ es, wrapperEmitted eventName = some es → ∀ h : index < es.length,
      getEmittedEvent wrapperEmitted eventName index =
        (es.get ⟨index, h⟩).head?) := by
  refine ⟨?_, ?_, ?_⟩
  · intro h
    simp [getEmittedEvent, h]
  · intro es hes hlen
    have hnone : es[index]? = none := List.getElem?_eq_none hlen
    simp [getEmittedEvent, hes, hnone]
  · intro es hes h
    have hsome : es[index]? = some es[index] := List.getElem?_eq_getElem h
    simp [getEmittedEvent, hes, hsome, List.get_eq_getElem]

theorem getEmittedEvent_total_witness :
    getEmittedEvent (fun _ => some [[(1 : Nat)], [2, 3]]) "change" 1 = some 2 ∧
    getEmittedEvent (fun _ => (none : Option (List (List Nat)))) "change" 0 = none := by
  constructor
  · have h := (getEmittedEvent_total (fun _ => some [[(1 : Nat)], [2, 3]])
      "change" 1).2.2 [[1], [2, 3]] rfl (by decide)
    simpa using h
  · exact (getEmittedEvent_total (fun _ => (none : Option (List (List Nat))))
      "change" 0).1 rfl

/-- C5: every acceptance-criterion test emitted by the generator contains the
intentionally failing red-phase placeholder assertion, and consequently the
content validator's `followsTddPattern` flag is true on every generator
output. -/
theorem generator_red_phase (cn : String) (req : Requirements)
    (meta : Option (String × String)) :
    (∀ c ∈ req.acceptanceCriteria, redPhaseLine ∈ criterionTest cn c ∧
      strHas redPhaseLine redPhaseMarker = true) ∧
    followsTddPattern (generateTestContent cn req meta) = true := by
  constructor
  · intro c hc
    exact ⟨by simp [criterionTest], by decide⟩
  · rw [followsTddPattern, List.any_eq_true]
    refine ⟨redPhaseLine, ?_, by decide⟩
    simp [generateTestContent, accessibilityBlock]

theorem generator_red_phase_witness :
    redPhaseLine ∈ criterionTest "LoginForm"
      "Given valid credentials, when submitted, then user is redirected" ∧
    followsTddPattern (generateTestContent "LoginForm"
      ⟨none, ["Given valid credentials, when submitted, then user is redirected"],
        [], [], [], "", ""⟩ none) = true := by
  have h := generator_red_phase "LoginForm"
    ⟨none, ["Given valid credentials, when submitted, then user is redirected"],
      [], [], [], "", ""⟩ none
  exact ⟨(h.1 _ (by simp)).1, h.2⟩

/-- C6, counterexample to the claim as stated: when `main` rejects, the
top-level `main().catch(console.error)` handler logs the error's stack to the
diagnostic stream but never sets a non-zero exit code, so the process exits
with status 0 — not the non-zero status the claim requires. -/
theorem interactive_error_exit_counterexample :
    interactiveTop (Except.error ⟨"boom", "Error: boom\n    at main"⟩) =
      (0, ["Error: boom\n    at main"]) := rfl

/-- C6 (amended): the interactive CLI exits with status 0 on completion, and
an uncaught error from `main` is caught by the top-level handler, which writes
the stack trace to the diagnostic stream while the process still exits with
status 0 (the handler never sets a non-zero exit code). -/
theorem interactive_exit_always_zero (r : Except JsError Unit) :
    (interactiveTop r).1 = 0 ∧
    (∀ e, r = Except.error e → (interactiveTop r).2 = [e.stack]) := by
  cases r with
  | ok v => exact ⟨rfl, fun e he => by simp at he⟩
  | error e => exact ⟨rfl, fun e' he => by cases he; rfl⟩

theorem interactive_exit_always_zero_witness :
    (interactiveTop (Except.error ⟨"x", "stacktrace"⟩)).1 = 0 ∧
    (interactiveTop (Except.error ⟨"x", "stacktrace"⟩)).2 = ["stacktrace"] :=
  ⟨(interactive_exit_always_zero _).1,
   (interactive_exit_always_zero _).2 ⟨"x", "stacktrace"⟩ rfl⟩

/-- C7: in the interactive flow no external-tool (issue-tracker /
version-control) failure aborts the run: `main` always resolves and reaches
`rl.close()`; when the GitHub CLI is absent the issue body goes to a local
fallback file; a failed `gh issue create` is logged and the flow continues;
a failed branch creation is logged as "may already exist" and the flow still
proceeds to component scaffolding and test-file generation. -/
theorem interactive_external_tools_nonfatal (w : ExtWorld) (a : Answers) :
    (interactiveMain w a).2 = Except.ok () ∧
    IEvent.closed ∈ (interactiveMain w a).1 ∧
    (w.hasGitHubCLI = false →
      IEvent.fallbackFileWritten
        ("issue-" ++ a.componentName ++ "-" ++ w.timestamp ++ ".md") ∈
        (interactiveMain w a).1) ∧
    (∀ e, w.hasGitHubCLI = true → w.ghCreateResult = Except.error e →
      IEvent.ghCreateErrorLogged e.message ∈ (interactiveMain w a).1) ∧
    (∀ e, w.gitCheckoutResult = Except.error e → jsToLower a.generateLocal = "y" →
      IEvent.branchFallbackLogged ("feature/" ++ jsToLower a.componentName) ∈
        (interactiveMain w a).1) ∧
    (jsToLower a.generateLocal = "y" →
      IEvent.scaffoldInvoked a.componentName (issueTitleOf a) ∈
        (interactiveMain w a).1 ∧
      IEvent.testFileWritten ("src/components/" ++ a.componentName ++ ".test.ts")
        (generateTestContent a.componentName (requirementsOf a) none) ∈
        (interactiveMain w a).1) := by
  refine ⟨rfl, ?_, ?_, ?_, ?_, ?_⟩
  · simp [interactiveMain]
  · intro hgh
    simp [interactiveMain, ghSteps, hgh]
  · intro e hgh he
    simp [interactiveMain, ghSteps, hgh, he]
  · intro e he hy
    simp [interactiveMain, localSteps, he, hy]
  · intro hy
    constructor <;>
      cases hck : w.gitCheckoutResult <;>
        simp [interactiveMain, localSteps, hck, hy]

theorem interactive_external_tools_nonfatal_witness :
    IEvent.fallbackFileWritten "issue-Card-T.md" ∈
      (interactiveMain ⟨false, Except.error ⟨"e", "s"⟩, Except.error ⟨"g", "t"⟩, "T"⟩
        ⟨"Card", "d", "u", "f", "b", [], "", "", "", [], [], [], "", "", "", "y"⟩).1 ∧
    IEvent.branchFallbackLogged "feature/card" ∈
      (interactiveMain ⟨false, Except.error ⟨"e", "s"⟩, Except.error ⟨"g", "t"⟩, "T"⟩
        ⟨"Card", "d", "u", "f", "b", [], "", "", "", [], [], [], "", "", "", "y"⟩).1 ∧
    IEvent.scaffoldInvoked "Card" "[FEATURE] Card - d" ∈
      (interactiveMain ⟨false, Except.error ⟨"e", "s"⟩, Except.error ⟨"g", "t"⟩, "T"⟩
        ⟨"Card", "d", "u", "f", "b", [], "", "", "", [], [], [], "", "", "", "y"⟩).1 := by
  have h := interactive_external_tools_nonfatal
    ⟨false, Except.error ⟨"e", "s"⟩, Except.error ⟨"g", "t"⟩, "T"⟩
    ⟨"Card", "d", "u", "f", "b", [], "", "", "", [], [], [], "", "", "", "y"⟩
  refine ⟨?_, ?_, ?_⟩
  · have := h.2.2.1 rfl
    simpa using this
  · have := h.2.2.2.2.1 ⟨"g", "t"⟩ rfl (by decide)
    simpa using this
  · have := (h.2.2.2.2.2 (by decide)).1
    simpa [issueTitleOf] using this

end VueTdd
